import Mathlib

/-! Verification development for the CSS3D periodic-table visualization
(src/src/main.js): shallow embedding of the layout generators, the tween-based
transition engine, record normalization and net-worth parsing, together with
theorems settling the specified properties. JS numbers are modelled as exact
reals for scene geometry and exact rationals for net-worth arithmetic. -/

/-- A 3D vector of scene coordinates. -/
@[ext]
structure Vec3 where
  x : ℝ
  y : ℝ
  z : ℝ

/-- Orientation state of a THREE.Object3D as the source manipulates it: either the
default Euler rotation (a new object carries euler (0,0,0)), or the state produced
by calling object.lookAt(target) at a given object position. -/
inductive Rot where
  | euler (v : Vec3)
  | lookAt (pos target : Vec3)

/-- A layout target: a THREE.Object3D holding a position and an orientation. -/
@[ext]
structure Target3D where
  position : Vec3
  rotation : Rot

/-- A live tile pose: position plus Euler rotation, the two vectors the tween
engine interpolates (object.position and object.rotation in the source). -/
@[ext]
structure Obj where
  position : Vec3
  rotation : Vec3

/-! ## CONFIG constants (main.js lines 98-107) -/

def tableColumns : ℕ := 20
def tableRows : ℕ := 10
def gridX : ℕ := 5
def gridY : ℕ := 4
def gridZ : ℕ := 10
def netWorthLow : ℚ := 100000
def netWorthHigh : ℚ := 200000
def MAX_RECORDS : ℕ := tableColumns * tableRows

noncomputable section

def tableSpacingX : ℝ := 140
def tableSpacingY : ℝ := 180
def sphereRadius : ℝ := 900
def helixRadius : ℝ := 1000
def helixSeparation : ℝ := 28
def helixAngleStep : ℝ := 0.4
def gridSpacing : ℝ := 320

/-! ## Layout generators (main.js lines 400-473) -/

/-- Table layout: fixed 20x10 grid (buildTableTargets). -/
def buildTableTargets (count : ℕ) : List Target3D :=
  let offsetX : ℝ := ((tableColumns : ℝ) - 1) * tableSpacingX * 0.5
  let offsetY : ℝ := ((tableRows : ℝ) - 1) * tableSpacingY * 0.5
  (List.range count).map fun i =>
    let col : ℕ := i % tableColumns
    let row : ℕ := i / tableColumns
    { position := ⟨(col : ℝ) * tableSpacingX - offsetX, -((row : ℝ) * tableSpacingY - offsetY), 0⟩
      rotation := Rot.euler ⟨0, 0, 0⟩ }

/-- Sphere layout based on a golden spiral distribution (buildSphereTargets). -/
def buildSphereTargets (count : ℕ) : List Target3D :=
  (List.range count).map fun (i : ℕ) =>
    let phi : ℝ := Real.arccos (-1 + (2 * (i : ℝ)) / (count : ℝ))
    let theta : ℝ := Real.sqrt ((count : ℝ) * Real.pi) * phi
    let pos : Vec3 := ⟨sphereRadius * Real.cos theta * Real.sin phi,
                       sphereRadius * Real.sin theta * Real.sin phi,
                       sphereRadius * Real.cos phi⟩
    { position := pos, rotation := Rot.lookAt pos ⟨pos.x * 2, pos.y * 2, pos.z * 2⟩ }

/-- Double helix layout, two alternating strands (buildHelixTargets). -/
def buildHelixTargets (count : ℕ) : List Target3D :=
  (List.range count).map fun i =>
    let strand : ℕ := i % 2
    let angle : ℝ := (i : ℝ) * helixAngleStep + (if strand = 0 then 0 else Real.pi)
    let pos : Vec3 := ⟨helixRadius * Real.sin angle,
                       -((i : ℝ) * helixSeparation) + (count : ℝ) * helixSeparation * 0.5,
                       helixRadius * Real.cos angle⟩
    { position := pos, rotation := Rot.lookAt pos ⟨pos.x * 2, pos.y, pos.z * 2⟩ }

/-- 3D grid layout: 5x4x10 (buildGridTargets). -/
def buildGridTargets (count : ℕ) : List Target3D :=
  (List.range count).map fun i =>
    let x : ℕ := i % gridX
    let y : ℕ := (i / gridX) % gridY
    let z : ℕ := (i / (gridX * gridY)) % gridZ
    { position := ⟨((x : ℝ) - ((gridX : ℝ) - 1) / 2) * gridSpacing,
                   (-((y : ℝ) - ((gridY : ℝ) - 1) / 2)) * gridSpacing,
                   ((z : ℝ) - ((gridZ : ℝ) - 1) / 2) * gridSpacing⟩
      rotation := Rot.euler ⟨0, 0, 0⟩ }

/-- The four precomputed layout sets held in the module-level targets object. -/
structure Targets where
  table : List Target3D
  sphere : List Target3D
  helix : List Target3D
  grid : List Target3D

/-- Build all layout targets for the current record count (buildTargets). -/
def buildTargets (count : ℕ) : Targets :=
  { table := buildTableTargets count
    sphere := buildSphereTargets count
    helix := buildHelixTargets count
    grid := buildGridTargets count }

/-- The four supported layout kinds. -/
inductive LayoutKind where
  | table
  | sphere
  | helix
  | grid

/-- Layout generation dispatch: generate(kind, count), one of the four source builders. -/
def generate : LayoutKind → ℕ → List Target3D
  | LayoutKind.table, n => buildTableTargets n
  | LayoutKind.sphere, n => buildSphereTargets n
  | LayoutKind.helix, n => buildHelixTargets n
  | LayoutKind.grid, n => buildGridTargets n

end

/-! ## String primitives modelling the JS string operations used by main.js -/

/-- ASCII uppercase of one character, as String.prototype.toUpperCase acts on
the ASCII range relevant to net-worth parsing. -/
def upperChar (c : Char) : Char :=
  if 97 ≤ c.toNat ∧ c.toNat ≤ 122 then Char.ofNat (c.toNat - 32) else c

/-- ASCII lowercase of one character, as String.prototype.toLowerCase acts on
the ASCII range relevant to header matching. -/
def lowerChar (c : Char) : Char :=
  if 65 ≤ c.toNat ∧ c.toNat ≤ 90 then Char.ofNat (c.toNat + 32) else c

/-- Whitespace test standing for the JS regex class backslash-s. -/
def isWsChar (c : Char) : Bool := c.isWhitespace

/-- String.prototype.trim on a character list: strip whitespace from both ends. -/
def jsTrim (l : List Char) : List Char :=
  ((l.dropWhile isWsChar).reverse.dropWhile isWsChar).reverse

/-- Fuel-driven scanner behind removeSub; the fuel is an upper bound on the
input length, so the last clause is never reached from removeSub. -/
def removeSubFuel (pat : List Char) : ℕ → List Char → List Char
  | _, [] => []
  | fuel + 1, c :: rest =>
    if pat ≠ [] ∧ pat.isPrefixOf (c :: rest) then
      removeSubFuel pat fuel (rest.drop (pat.length - 1))
    else
      c :: removeSubFuel pat fuel rest
  | 0, l => l

/-- Global, leftmost, non-overlapping removal of a pattern, as
String.prototype.replace(pat-regexp-g, empty) for a literal pattern. -/
def removeSub (pat l : List Char) : List Char :=
  removeSubFuel pat l.length l

/-- Character class of the regex fragment matching digits, commas and dots. -/
def isNumC (c : Char) : Bool := c.isDigit || c == ',' || c == '.'

/-- Position of the leftmost match of the regex `-?[digit-comma-dot]+` : returns
the suffix of the input starting at the match, like a regex engine scanning
left to right. -/
def findNumStart : List Char → Option (List Char)
  | [] => none
  | c :: rest =>
    if isNumC c then some (c :: rest)
    else if c == '-' then
      match rest with
      | d :: _ => if isNumC d then some (c :: rest) else findNumStart rest
      | [] => none
    else findNumStart rest

/-- The regex match of parseNetWorth: captures group 1 (the signed number text)
and group 2 (an optional K, M or B suffix after optional whitespace). -/
def matchNetWorth (l : List Char) : Option (List Char × Option Char) :=
  match findNumStart l with
  | none => none
  | some s =>
    let neg : Bool := s.head? == some '-'
    let s2 : List Char := if neg then s.drop 1 else s
    let digits := s2.takeWhile isNumC
    let rest := (s2.dropWhile isNumC).dropWhile isWsChar
    let suf : Option Char := match rest.head? with
      | some c => if c == 'K' || c == 'M' || c == 'B' then some c else none
      | none => none
    some ((if neg then '-' :: digits else digits), suf)

/-- Numeric value of a digit list, most significant first. -/
def digitsVal (l : List Char) : ℕ :=
  l.foldl (fun a c => a * 10 + (c.toNat - 48)) 0

/-- Digit scan of parseFloat after the sign: integer digits, then an optional
dot and fraction digits; NaN (None) when no digit was consumed. -/
def jsParseFloatAux (sgn : ℚ) (l1 : List Char) : Option ℚ :=
  let intD := l1.takeWhile Char.isDigit
  let rest := l1.dropWhile Char.isDigit
  let fracD : List Char :=
    if rest.head? = some '.' then rest.tail.takeWhile Char.isDigit else []
  if intD = [] ∧ fracD = [] then none
  else some (sgn * ((digitsVal intD : ℚ) + mkRat (digitsVal fracD) (10 ^ fracD.length)))

/-- JS parseFloat restricted to the alphabet reaching it in parseNetWorth
(optional sign, digits, dots). -/
def jsParseFloat (l : List Char) : Option ℚ :=
  if l.head? = some '-' then jsParseFloatAux (-1) l.tail
  else if l.head? = some '+' then jsParseFloatAux 1 l.tail
  else jsParseFloatAux 1 l

/-- Suffix multiplier of parseNetWorth (main.js line 293). -/
def multSuffix (suffix : Option Char) : ℚ :=
  match suffix with
  | some c => if c = 'K' then 1000 else if c = 'M' then 1000000
              else if c = 'B' then 1000000000 else 1
  | none => 1

/-- parseNetWorth (main.js lines 280-295): accepts values like a dollar amount
with commas, 100K, or 0.2M; None models the null result. The argument is an
Option to model a possibly undefined cell (value == null). -/
def parseNetWorth (value : Option String) : Option ℚ :=
  match value with
  | none => none
  | some v =>
    let raw := jsTrim v.toList
    if raw = [] then none
    else
      let cleaned := jsTrim (removeSub "USD".toList
        ((raw.map upperChar).filter fun c => !(c == '$')))
      match matchNetWorth cleaned with
      | none => none
      | some (g1, suf) =>
        match jsParseFloat (g1.filter fun c => !(c == ',')) with
        | none => none
        | some q => some (q * multSuffix suf)

/-- Net worth color buckets (getWorthClass, main.js lines 385-390). -/
def getWorthClass (netWorthValue : Option ℚ) : String :=
  match netWorthValue with
  | none => "worth-unknown"
  | some v =>
    if v < netWorthLow then "worth-low"
    else if v < netWorthHigh then "worth-mid"
    else "worth-high"

/-- isValidUrl (main.js lines 269-277): an empty string is falsy and invalid;
otherwise validity is decided by the host URL constructor, taken as a
parameter urlOk of the embedding. -/
def isValidUrl (urlOk : String → Bool) (value : String) : Bool :=
  if value = "" then false else urlOk value

/-! ## Records and tile card content -/

/-- A normalized sheet record (the object built by normalizeRows). -/
structure Record where
  name : String
  photo : String
  age : String
  country : String
  interest : String
  netWorthRaw : String
  netWorthValue : Option ℚ

/-- Content of the photo area of a tile: an img node or fallback text. -/
inductive PhotoSlot where
  | img (src alt : String)
  | text (s : String)

/-- The DOM content of one tile element as assembled by buildObjects. -/
structure Card where
  worthClass : String
  country : String
  age : String
  photo : PhotoSlot
  name : String
  interest : String

/-- The element built for one record inside buildObjects (main.js lines 340-372). -/
def buildCard (urlOk : String → Bool) (r : Record) : Card :=
  { worthClass := getWorthClass r.netWorthValue
    country := r.country
    age := r.age
    photo := if isValidUrl urlOk r.photo then PhotoSlot.img r.photo r.name
             else PhotoSlot.text "No Photo"
    name := r.name
    interest := r.interest }

/-! ## Row normalization (normalizeRows, main.js lines 214-258) -/

/-- Keep [a-z0-9] after lowercasing: the character filter of normalizeKey. -/
def keepKey (c : Char) : Bool :=
  (97 ≤ c.toNat && c.toNat ≤ 122) || c.isDigit

/-- normalizeKey (main.js lines 253-258): lowercase, strip every character
outside [a-z0-9], trim. -/
def normalizeKey (v : String) : List Char :=
  jsTrim ((v.toList.map lowerChar).filter keepKey)

/-- Substring containment, as String.prototype.includes. -/
def containsSub (hay needle : List Char) : Bool :=
  hay.tails.any fun t => needle.isPrefixOf t

/-- indexFor (main.js lines 216-219): first header column whose normalized key
contains the normalized form of one of the candidate names; None models -1. -/
def indexFor (keys : List String) (candidates : List String) : Option ℕ :=
  keys.findIdx? fun key =>
    candidates.any fun c => containsSub (normalizeKey key) (normalizeKey c)

/-- Cell access row[j] where both a missing column and an absent cell yield
undefined (None). -/
def cellAt (row : List (Option String)) (j : ℕ) : Option String :=
  (row.get? j).getD none

/-- The JS pattern value-or-else: empty string and undefined fall back. -/
def jsOrStr (v : Option String) (fb : String) : String :=
  match v with
  | some s => if s = "" then fb else s
  | none => fb

/-- Cell of the row at an indexFor result, with the ternary default of an
empty string when the column was not found (idx < 0 in the source). -/
def cellOrEmpty (idx : Option ℕ) (row : List (Option String)) : Option String :=
  match idx with
  | some j => cellAt row j
  | none => some ""

/-- Array.prototype.map with the element index, as rows.map((row, index) => ...). -/
def mapWithIndex (f : ℕ → α → β) (l : List α) : List β :=
  ((List.range l.length).zip l).map fun p => f p.1 p.2

/-- The blank-row test of normalizeRows: some cell stringifies and trims to
a non-empty string. -/
def rowHasContent (row : List (Option String)) : Bool :=
  row.any fun cell => !(jsTrim (cell.getD "").toList).isEmpty

/-- normalizeRows (main.js lines 214-251): locate the expected columns in the
header, drop blank rows, and build one Record per remaining row with the
documented fallbacks. -/
def normalizeRows (header : List String) (rows : List (List (Option String))) :
    List Record :=
  let keys := header.map fun cell => String.mk (jsTrim cell.toList)
  let idxName := indexFor keys ["name", "full name", "person"]
  let idxPhoto := indexFor keys ["photo", "image", "avatar"]
  let idxAge := indexFor keys ["age"]
  let idxCountry := indexFor keys ["country", "nation", "location"]
  let idxInterest := indexFor keys ["interest", "hobby", "hobbies"]
  let idxWorth := indexFor keys ["net worth", "networth", "worth", "wealth"]
  mapWithIndex (fun index row =>
    let rawWorth : Option String := match idxWorth with
      | some j => cellAt row j
      | none => some ""
    { name := jsOrStr (cellOrEmpty idxName row) s!"Person {index + 1}"
      photo := jsOrStr (cellOrEmpty idxPhoto row) ""
      age := jsOrStr (cellOrEmpty idxAge row) ""
      country := jsOrStr (cellOrEmpty idxCountry row) ""
      interest := jsOrStr (cellOrEmpty idxInterest row) ""
      netWorthRaw := jsOrStr rawWorth ""
      netWorthValue := parseNetWorth rawWorth })
    (rows.filter rowHasContent)

/-! ## Transition engine (transform, main.js lines 489-516) and render tick -/

noncomputable section

/-- Exponential ease-in-out of tween.js (TWEEN.Easing.Exponential.InOut). -/
def easeExpInOut (k : ℝ) : ℝ :=
  if k = 0 then 0
  else if k = 1 then 1
  else if 2 * k < 1 then 0.5 * (2 : ℝ) ^ ((10 : ℝ) * (2 * k - 1))
  else 0.5 * (-(2 : ℝ) ^ ((-10 : ℝ) * (2 * k - 1)) + 2)

/-- Linear interpolation of one coordinate, as tween.js writes
start + (end - start) * easedProgress into the animated property. -/
def lerpR (a b e : ℝ) : ℝ := a + (b - a) * e

/-- Componentwise interpolation of a vector property. -/
def lerpV (a b : Vec3) (e : ℝ) : Vec3 :=
  ⟨lerpR a.x b.x e, lerpR a.y b.y e, lerpR a.z b.z e⟩

/-- Interpolation of a tile pose: position and rotation tweens share the
start time, duration and easing, as both are created by one transform call. -/
def lerpObj (a b : Obj) (e : ℝ) : Obj :=
  ⟨lerpV a.position b.position e, lerpV a.rotation b.rotation e⟩

/-- The animation state created by one transform call: per-tile start poses
captured synchronously at call time, per-tile target poses, shared start time
and duration. TWEEN.removeAll makes this the only live animation state. -/
structure TransState where
  startPoses : List Obj
  targets : List Obj
  startTime : ℝ
  duration : ℝ

/-- Tween progress: elapsed fraction clamped at 1, with a zero duration
treated as already complete (tween.js update). -/
def progress (t : TransState) (now : ℝ) : ℝ :=
  if t.duration = 0 then 1
  else if 1 < (now - t.startTime) / t.duration then 1
  else (now - t.startTime) / t.duration

/-- The scene module state: tile elements, live tile poses, the precomputed
layout sets, the live animation state, and whether the animation loop runs. -/
structure SceneState where
  cards : List Card
  objects : List Obj
  layouts : Targets
  trans : Option TransState
  renderLoop : Bool

/-- The per-tile target assignment of transform: tile i is paired with
targetsList[i % targetsList.length]. -/
def wrapTargets (targetsList : List Obj) (n : ℕ) : List Obj :=
  (List.range n).map fun i =>
    targetsList.getD (i % targetsList.length) ⟨⟨0, 0, 0⟩, ⟨0, 0, 0⟩⟩

/-- transform (main.js lines 489-516): TWEEN.removeAll discards every pending
animation, then one position tween and one rotation tween per tile are started
from the tile's current pose toward its wrapped target. None models the
TypeError thrown when targetsList is empty while tiles exist (indexing into
undefined); there is no layout-size check. -/
def transform (targetsList : List Obj) (duration now : ℝ) (s : SceneState) :
    Option SceneState :=
  if s.objects.length ≠ 0 ∧ targetsList.length = 0 then none
  else some { s with trans := some { startPoses := s.objects
                                     targets := wrapTargets targetsList s.objects.length
                                     startTime := now
                                     duration := duration } }

/-- One animation tick at wall-clock time now (TWEEN.update inside animate):
every live tween recomputes its property from its captured start value, its
target value and the shared eased progress. -/
def update (now : ℝ) (s : SceneState) : SceneState :=
  match s.trans with
  | none => s
  | some t =>
    if now < t.startTime then s
    else { s with objects := (t.startPoses.zip t.targets).map fun p =>
             lerpObj p.1 p.2 (easeExpInOut (progress t now)) }

/-- Euler angles read off a target object by the tween creation code
(target.rotation.x/y/z). For a lookAt orientation the concrete angles are the
ones three.js derives; they are abstracted as a parameter f of the embedding. -/
def toObj (f : Vec3 → Vec3 → Vec3) (tg : Target3D) : Obj :=
  { position := tg.position
    rotation := match tg.rotation with
      | Rot.euler v => v
      | Rot.lookAt p q => f p q }

/-! ## Scene lifecycle (initScene, setMenuHandlers, boot) -/

/-- buildObjects (main.js lines 340-382): one card element and one CSS3D
object per record, index aligned; initial positions are the Math.random
placements, abstracted as a parameter rnd. -/
def buildObjects (urlOk : String → Bool) (rnd : ℕ → Vec3) (records : List Record) :
    List Card × List Obj :=
  (records.map (buildCard urlOk),
   (List.range records.length).map fun i => ⟨rnd i, ⟨0, 0, 0⟩⟩)

/-- initScene (main.js lines 298-322): build tiles and all four layout sets
for the record count, issue the initial transform toward the table layout
with a 2000 ms duration, then start the render loop. -/
def initScene (urlOk : String → Bool) (f : Vec3 → Vec3 → Vec3) (rnd : ℕ → Vec3)
    (records : List Record) (t0 : ℝ) : Option SceneState :=
  let built := buildObjects urlOk rnd records
  let tg := buildTargets records.length
  let s0 : SceneState :=
    { cards := built.1, objects := built.2, layouts := tg
      trans := none, renderLoop := false }
  (transform (tg.table.map (toObj f)) 2000 t0 s0).map fun s =>
    { s with renderLoop := true }

/-- Menu trigger for the table layout (setMenuHandlers, main.js line 482). -/
def selectTable (f : Vec3 → Vec3 → Vec3) (t : ℝ) (s : SceneState) : Option SceneState :=
  transform (s.layouts.table.map (toObj f)) 2000 t s

/-- Menu trigger for the sphere layout (main.js line 483). -/
def selectSphere (f : Vec3 → Vec3 → Vec3) (t : ℝ) (s : SceneState) : Option SceneState :=
  transform (s.layouts.sphere.map (toObj f)) 2000 t s

/-- Menu trigger for the helix layout (main.js line 484). -/
def selectHelix (f : Vec3 → Vec3 → Vec3) (t : ℝ) (s : SceneState) : Option SceneState :=
  transform (s.layouts.helix.map (toObj f)) 2000 t s

/-- Menu trigger for the grid layout (main.js line 485). -/
def selectGrid (f : Vec3 → Vec3 → Vec3) (t : ℝ) (s : SceneState) : Option SceneState :=
  transform (s.layouts.grid.map (toObj f)) 2000 t s

/-- The scene-population path of the boot OAuth callback (main.js lines
147-154): normalize the fetched rows, then initialize the scene with the
records truncated to MAX_RECORDS. -/
def bootPopulate (urlOk : String → Bool) (f : Vec3 → Vec3 → Vec3) (rnd : ℕ → Vec3)
    (header : List String) (rows : List (List (Option String))) (t0 : ℝ) :
    Option SceneState :=
  initScene urlOk f rnd ((normalizeRows header rows).take MAX_RECORDS) t0

/-! ## Spec-side comparison definitions and statement helpers -/

/-- Default target used for out-of-range list reads in statements. -/
def dTgt : Target3D := ⟨⟨0, 0, 0⟩, Rot.euler ⟨0, 0, 0⟩⟩

/-- Default pose used for out-of-range list reads in statements. -/
def dObj : Obj := ⟨⟨0, 0, 0⟩, ⟨0, 0, 0⟩⟩

/-- Euclidean norm of a scene vector. -/
def norm3 (v : Vec3) : ℝ := Real.sqrt (v.x ^ 2 + v.y ^ 2 + v.z ^ 2)

/-- Stated from the spec of the table layout: slot i sits at
((i mod 20) spacingX - offsetX, -((i div 20) spacingY - offsetY), 0) with
offsetX = 19 spacingX / 2 and offsetY = 9 spacingY / 2. -/
def tablePoseSpec (i : ℕ) : Vec3 :=
  ⟨((i % 20 : ℕ) : ℝ) * tableSpacingX - 19 * tableSpacingX / 2,
   -(((i / 20 : ℕ) : ℝ) * tableSpacingY - 9 * tableSpacingY / 2),
   0⟩

/-- Stated from the spec of the helix layout: angle of slot i is
i angleStep plus pi exactly on the odd strand. -/
def helixAngleSpec (i : ℕ) : ℝ :=
  (i : ℝ) * helixAngleStep + (if i % 2 = 1 then Real.pi else 0)

/-- Stated from the spec of the 3D grid layout: slot i sits at
((x-2) s, -(y-1.5) s, (z-4.5) s) for x = i mod 5, y = i div 5 mod 4,
z = i div 20 mod 10. -/
def gridPoseSpec (i : ℕ) : Vec3 :=
  ⟨(((i % 5 : ℕ) : ℝ) - 2) * gridSpacing,
   -((((i / 5 % 4 : ℕ) : ℝ)) - 1.5) * gridSpacing,
   ((((i / 20 % 10 : ℕ) : ℝ)) - 4.5) * gridSpacing⟩

end

/-! ## Basic lemmas about the embedding -/

theorem rangeMap_getD (f : ℕ → α) (n i : ℕ) (d : α) (h : i < n) :
    ((List.range n).map f).getD i d = f i := by
  have hlen : i < ((List.range n).map f).length := by simpa using h
  rw [List.getD_eq_getElem _ _ hlen]
  simp

theorem buildTableTargets_length (count : ℕ) :
    (buildTableTargets count).length = count := by
  simp [buildTableTargets]

theorem buildSphereTargets_length (count : ℕ) :
    (buildSphereTargets count).length = count := by
  simp [buildSphereTargets]

theorem buildHelixTargets_length (count : ℕ) :
    (buildHelixTargets count).length = count := by
  simp [buildHelixTargets]

theorem buildGridTargets_length (count : ℕ) :
    (buildGridTargets count).length = count := by
  simp [buildGridTargets]

theorem buildTableTargets_getD (count i : ℕ) (h : i < count) :
    (buildTableTargets count).getD i dTgt = ⟨tablePoseSpec i, Rot.euler ⟨0, 0, 0⟩⟩ := by
  unfold buildTableTargets
  rw [rangeMap_getD _ _ _ _ h]
  simp only [Target3D.mk.injEq, Vec3.mk.injEq, tablePoseSpec,
    tableSpacingX, tableSpacingY, tableColumns, tableRows]
  norm_num

/-! ## Claim theorems -/

/-- C3: layout generation is a pure function of (kind, count): generate(kind, n)
has exactly n poses for every kind and n, generate(kind, 0) is the empty
sequence (the generating loop body, including the sphere division 2i/count,
is never evaluated), and repeated calls agree. -/
theorem c3_generate_pure :
    ∀ (k : LayoutKind) (n : ℕ),
      (generate k n).length = n ∧ generate k 0 = [] ∧ generate k n = generate k n := by
  intro k n
  refine ⟨?_, ?_, rfl⟩ <;> cases k <;>
    simp [generate, buildTableTargets, buildSphereTargets, buildHelixTargets,
      buildGridTargets]

/-- C4: table layout geometry: every slot i below count carries the fixed-grid
pose (x = (i mod 20) spacingX - offsetX with offsetX = 19 spacingX / 2,
y = -((i div 20) spacingY - offsetY) with offsetY = 9 spacingY / 2, z = 0)
with identity orientation; with count = 200, slot 0 is the top-left corner
(minimal x = -1330, maximal y = 810) and slot 199 the bottom-right corner
(x = 1330, y = -810); and a slot's pose is independent of count (no
re-centering for partial fills). -/
theorem c4_table_geometry :
    (∀ count i, i < count →
      (buildTableTargets count).getD i dTgt = ⟨tablePoseSpec i, Rot.euler ⟨0, 0, 0⟩⟩) ∧
    ((buildTableTargets 200).getD 0 dTgt).position = ⟨-1330, 810, 0⟩ ∧
    ((buildTableTargets 200).getD 199 dTgt).position = ⟨1330, -810, 0⟩ ∧
    (∀ i, i < 200 →
      -1330 ≤ (tablePoseSpec i).x ∧ (tablePoseSpec i).x ≤ 1330 ∧
      -810 ≤ (tablePoseSpec i).y ∧ (tablePoseSpec i).y ≤ 810) ∧
    (∀ c₁ c₂ i, i < c₁ → i < c₂ →
      (buildTableTargets c₁).getD i dTgt = (buildTableTargets c₂).getD i dTgt) := by
  refine ⟨fun count i h => buildTableTargets_getD count i h, ?_, ?_, ?_, ?_⟩
  · rw [buildTableTargets_getD 200 0 (by norm_num)]
    simp [tablePoseSpec, tableSpacingX, tableSpacingY]
    norm_num
  · rw [buildTableTargets_getD 200 199 (by norm_num)]
    simp [tablePoseSpec, tableSpacingX, tableSpacingY]
    norm_num
  · intro i h
    have hc : i % 20 ≤ 19 := by omega
    have hr : i / 20 ≤ 9 := by omega
    have hcR : ((i % 20 : ℕ) : ℝ) ≤ 19 := by exact_mod_cast hc
    have hrR : ((i / 20 : ℕ) : ℝ) ≤ 9 := by exact_mod_cast hr
    have hc0 : (0 : ℝ) ≤ ((i % 20 : ℕ) : ℝ) := by positivity
    have hr0 : (0 : ℝ) ≤ ((i / 20 : ℕ) : ℝ) := by positivity
    simp only [tablePoseSpec, tableSpacingX, tableSpacingY]
    refine ⟨by nlinarith, by nlinarith, by nlinarith, by nlinarith⟩
  · intro c₁ c₂ i h₁ h₂
    rw [buildTableTargets_getD c₁ i h₁, buildTableTargets_getD c₂ i h₂]

/-- Witness for C4 at a concrete slot and count. -/
theorem c4_table_geometry_witness :
    (buildTableTargets 1).getD 0 dTgt = ⟨tablePoseSpec 0, Rot.euler ⟨0, 0, 0⟩⟩ :=
  c4_table_geometry.1 1 0 (by decide)

theorem sqrt_sphere_aux (R θ φ : ℝ) (hR : 0 ≤ R) :
    Real.sqrt ((R * Real.cos θ * Real.sin φ) ^ 2 + (R * Real.sin θ * Real.sin φ) ^ 2 +
      (R * Real.cos φ) ^ 2) = R := by
  have hθ := Real.sin_sq_add_cos_sq θ
  have hφ := Real.sin_sq_add_cos_sq φ
  have hsum : (R * Real.cos θ * Real.sin φ) ^ 2 + (R * Real.sin θ * Real.sin φ) ^ 2 +
      (R * Real.cos φ) ^ 2 = R ^ 2 := by
    linear_combination (R ^ 2 * Real.sin φ ^ 2) * hθ + R ^ 2 * hφ
  rw [hsum, Real.sqrt_sq hR]

/-- C5: every sphere-layout position lies exactly on the sphere of radius 900
in exact real arithmetic, for any count at least 1 and any index below count. -/
theorem c5_sphere_on_sphere :
    ∀ count i, 1 ≤ count → i < count →
      norm3 ((buildSphereTargets count).getD i dTgt).position = sphereRadius := by
  intro count i h1 h
  unfold buildSphereTargets
  rw [rangeMap_getD _ _ _ _ h]
  simp only [norm3]
  exact sqrt_sphere_aux sphereRadius _ _ (by rw [sphereRadius]; norm_num)

/-- Witness for C5 at count 1, index 0. -/
theorem c5_sphere_on_sphere_witness :
    norm3 ((buildSphereTargets 1).getD 0 dTgt).position = sphereRadius :=
  c5_sphere_on_sphere 1 0 (by decide) (by decide)

/-- C6: the double-helix pose of slot i has angle i angleStep (plus pi exactly
on the odd strand), position (radius sin angle, -(i separation) + count
separation / 2, radius cos angle), and an orientation produced by looking at
the point (2 x, y, 2 z) from the tile position. -/
theorem c6_helix_geometry :
    ∀ count i, i < count →
      ∃ p : Vec3,
        (buildHelixTargets count).getD i dTgt =
          ⟨p, Rot.lookAt p ⟨p.x * 2, p.y, p.z * 2⟩⟩ ∧
        p.x = helixRadius * Real.sin (helixAngleSpec i) ∧
        p.y = -((i : ℝ) * helixSeparation) + (count : ℝ) * helixSeparation / 2 ∧
        p.z = helixRadius * Real.cos (helixAngleSpec i) := by
  intro count i h
  unfold buildHelixTargets
  rw [rangeMap_getD _ _ _ _ h]
  have hangle : ((i : ℝ) * helixAngleStep + (if i % 2 = 0 then (0 : ℝ) else Real.pi)) =
      helixAngleSpec i := by
    unfold helixAngleSpec
    rcases Nat.mod_two_eq_zero_or_one i with h2 | h2 <;> simp [h2]
  refine ⟨⟨helixRadius * Real.sin ((i : ℝ) * helixAngleStep +
            (if i % 2 = 0 then (0 : ℝ) else Real.pi)),
          -((i : ℝ) * helixSeparation) + (count : ℝ) * helixSeparation * 0.5,
          helixRadius * Real.cos ((i : ℝ) * helixAngleStep +
            (if i % 2 = 0 then (0 : ℝ) else Real.pi))⟩, rfl, ?_, ?_, ?_⟩
  · rw [hangle]
  · ring
  · rw [hangle]

/-- Witness for C6 at count 1, index 0. -/
theorem c6_helix_geometry_witness :
    ∃ p : Vec3,
      (buildHelixTargets 1).getD 0 dTgt =
        ⟨p, Rot.lookAt p ⟨p.x * 2, p.y, p.z * 2⟩⟩ ∧
      p.x = helixRadius * Real.sin (helixAngleSpec 0) ∧
      p.y = -(((0 : ℕ) : ℝ) * helixSeparation) + ((1 : ℕ) : ℝ) * helixSeparation / 2 ∧
      p.z = helixRadius * Real.cos (helixAngleSpec 0) :=
  c6_helix_geometry 1 0 (by decide)

theorem buildGridTargets_getD (count i : ℕ) (h : i < count) :
    (buildGridTargets count).getD i dTgt = ⟨gridPoseSpec i, Rot.euler ⟨0, 0, 0⟩⟩ := by
  unfold buildGridTargets
  rw [rangeMap_getD _ _ _ _ h]
  simp only [Target3D.mk.injEq, Vec3.mk.injEq, gridPoseSpec, gridX, gridY, gridZ,
    gridSpacing]
  norm_num

/-- C7: the 3D-grid pose of slot i is ((x-2) s, -(y-1.5) s, (z-4.5) s) for
x = i mod 5, y = i div 5 mod 4, z = i div 20 mod 10; on count 200 the map from
index to position is injective, and every point of the 5 x 4 x 10 lattice is
hit: 200 distinct positions, no duplicates, no gaps. -/
theorem c7_grid_lattice :
    (∀ count i, i < count →
      (buildGridTargets count).getD i dTgt = ⟨gridPoseSpec i, Rot.euler ⟨0, 0, 0⟩⟩) ∧
    (∀ i j, i < 200 → j < 200 → gridPoseSpec i = gridPoseSpec j → i = j) ∧
    (∀ a b c : ℕ, a < 5 → b < 4 → c < 10 →
      ∃ i, i < 200 ∧ gridPoseSpec i =
        ⟨((a : ℝ) - 2) * gridSpacing, -(((b : ℝ) - 1.5)) * gridSpacing,
         ((c : ℝ) - 4.5) * gridSpacing⟩) := by
  refine ⟨fun count i h => buildGridTargets_getD count i h, ?_, ?_⟩
  · intro i j hi hj h
    simp only [gridPoseSpec, Vec3.mk.injEq, gridSpacing] at h
    obtain ⟨hx, hy, hz⟩ := h
    have e1 : ((i % 5 : ℕ) : ℝ) = ((j % 5 : ℕ) : ℝ) := by linarith
    have e2 : ((i / 5 % 4 : ℕ) : ℝ) = ((j / 5 % 4 : ℕ) : ℝ) := by linarith
    have e3 : ((i / 20 % 10 : ℕ) : ℝ) = ((j / 20 % 10 : ℕ) : ℝ) := by linarith
    have n1 : i % 5 = j % 5 := Nat.cast_injective e1
    have n2 : i / 5 % 4 = j / 5 % 4 := Nat.cast_injective e2
    have n3 : i / 20 % 10 = j / 20 % 10 := Nat.cast_injective e3
    omega
  · intro a b c ha hb hc
    refine ⟨a + 5 * b + 20 * c, by omega, ?_⟩
    have h1 : (a + 5 * b + 20 * c) % 5 = a := by omega
    have h2 : (a + 5 * b + 20 * c) / 5 % 4 = b := by omega
    have h3 : (a + 5 * b + 20 * c) / 20 % 10 = c := by omega
    simp only [gridPoseSpec, h1, h2, h3]

/-- Witness for C7 at a concrete slot and at a concrete lattice point. -/
theorem c7_grid_lattice_witness :
    (buildGridTargets 1).getD 0 dTgt = ⟨gridPoseSpec 0, Rot.euler ⟨0, 0, 0⟩⟩ ∧
    (∃ i, i < 200 ∧ gridPoseSpec i =
      ⟨(((0 : ℕ) : ℝ) - 2) * gridSpacing, -((((0 : ℕ) : ℝ) - 1.5)) * gridSpacing,
       (((0 : ℕ) : ℝ) - 4.5) * gridSpacing⟩) :=
  ⟨c7_grid_lattice.1 1 0 (by decide),
   c7_grid_lattice.2.2 0 0 0 (by decide) (by decide) (by decide)⟩

/-! ## Transition-engine lemmas -/

theorem easeExpInOut_one : easeExpInOut 1 = 1 := by
  unfold easeExpInOut
  norm_num

theorem lerpObj_one (a b : Obj) : lerpObj a b 1 = b := by
  ext <;> simp only [lerpObj, lerpV, lerpR] <;> ring

theorem progress_complete (t : TransState) (hd : t.duration ≠ 0) :
    progress t (t.startTime + t.duration) = 1 := by
  unfold progress
  rw [if_neg hd]
  have h : (t.startTime + t.duration - t.startTime) / t.duration = 1 := by
    field_simp
  rw [h, if_neg (lt_irrefl 1)]

theorem zip_lerp_one (A B : List Obj) (h : B.length ≤ A.length) :
    (A.zip B).map (fun p => lerpObj p.1 p.2 1) = B := by
  induction A generalizing B with
  | nil =>
    cases B with
    | nil => rfl
    | cons b B => simp at h
  | cons a A ih =>
    cases B with
    | nil => rfl
    | cons b B =>
      have hih := ih B (by simpa using h)
      simp only [List.zip_cons_cons, List.map_cons, lerpObj_one] at hih ⊢
      rw [hih]

theorem update_objects_length (now : ℝ) (s : SceneState) (t : TransState)
    (hs : s.trans = some t) (h1 : t.startPoses.length = s.objects.length)
    (h2 : t.targets.length = s.objects.length) :
    (update now s).objects.length = s.objects.length := by
  simp only [update, hs]
  split
  · rfl
  · simp [List.length_zip, h1, h2]

theorem update_complete (s : SceneState) (t : TransState) (hs : s.trans = some t)
    (hlen : t.targets.length ≤ t.startPoses.length) (hd : 0 < t.duration) :
    (update (t.startTime + t.duration) s).objects = t.targets := by
  have hguard : ¬ (t.startTime + t.duration < t.startTime) := by linarith
  simp only [update, hs, if_neg hguard]
  rw [progress_complete t (ne_of_gt hd), easeExpInOut_one]
  exact zip_lerp_one _ _ hlen

theorem transform_eq (targetsList : List Obj) (d t : ℝ) (s : SceneState)
    (h : ¬ (s.objects.length ≠ 0 ∧ targetsList.length = 0)) :
    transform targetsList d t s =
      some { s with trans := some ⟨s.objects, wrapTargets targetsList s.objects.length,
                                   t, d⟩ } := by
  unfold transform
  rw [if_neg h]

theorem wrapTargets_length (L : List Obj) (n : ℕ) : (wrapTargets L n).length = n := by
  simp [wrapTargets]

theorem wrapTargets_self (L : List Obj) (n : ℕ) (h : L.length = n) :
    wrapTargets L n = L := by
  subst h
  unfold wrapTargets
  apply List.ext_getElem
  · simp
  · intro i h1 h2
    simp only [List.getElem_map, List.getElem_range]
    rw [Nat.mod_eq_of_lt h2]
    exact List.getD_eq_getElem _ _ h2

/-- C1: transition supersession and exact completion. A transform call while a
previous transition toward L1 is in flight discards all of L1's scheduled
animation work (TWEEN.removeAll leaves the new transition as the sole
animation state), captures each tile's current, possibly mid-interpolation,
pose as the new start pose, and retargets to L2; when the new transition's
progress reaches 1 every tile pose equals L2's pose exactly. -/
theorem c1_transition_supersession :
    ∀ (s : SceneState) (L1 L2 : List Obj) (d1 d2 t0 tm t1 : ℝ),
      L1.length = s.objects.length → L2.length = s.objects.length → 0 < d2 →
      ∃ s1 s3,
        transform L1 d1 t0 s = some s1 ∧
        transform L2 d2 t1 (update tm s1) = some s3 ∧
        s3.trans = some ⟨(update tm s1).objects, L2, t1, d2⟩ ∧
        (update (t1 + d2) s3).objects = L2 := by
  intro s L1 L2 d1 d2 t0 tm t1 h1 h2 hd2
  have hc1 : ¬ (s.objects.length ≠ 0 ∧ L1.length = 0) := by omega
  have ht1 := transform_eq L1 d1 t0 s hc1
  have hlen1 : (update tm { s with trans := some ⟨s.objects,
      wrapTargets L1 s.objects.length, t0, d1⟩ }).objects.length = s.objects.length :=
    update_objects_length _ _ _ rfl rfl (wrapTargets_length _ _)
  have hc2 : ¬ ((update tm { s with trans := some ⟨s.objects,
      wrapTargets L1 s.objects.length, t0, d1⟩ }).objects.length ≠ 0 ∧
      L2.length = 0) := by
    rw [hlen1]; omega
  have ht2 := transform_eq L2 d2 t1 (update tm { s with trans := some ⟨s.objects,
      wrapTargets L1 s.objects.length, t0, d1⟩ }) hc2
  have hwrap : wrapTargets L2 (update tm { s with trans := some ⟨s.objects,
      wrapTargets L1 s.objects.length, t0, d1⟩ }).objects.length = L2 :=
    wrapTargets_self _ _ (by rw [hlen1]; exact h2)
  rw [hwrap] at ht2
  refine ⟨_, _, ht1, ht2, rfl, ?_⟩
  exact update_complete _
    ⟨(update tm { s with trans := some ⟨s.objects,
        wrapTargets L1 s.objects.length, t0, d1⟩ }).objects, L2, t1, d2⟩ rfl
    (by rw [hlen1]; exact le_of_eq h2) hd2

/-- Witness for C1: one tile, two interrupting transitions at concrete times. -/
theorem c1_transition_supersession_witness :
    ∃ s1 s3,
      transform [(⟨⟨1, 0, 0⟩, ⟨0, 0, 0⟩⟩ : Obj)] 2000 0
        ⟨[], [⟨⟨0, 0, 0⟩, ⟨0, 0, 0⟩⟩], ⟨[], [], [], []⟩, none, false⟩ = some s1 ∧
      transform [(⟨⟨2, 0, 0⟩, ⟨0, 0, 0⟩⟩ : Obj)] 2000 1000 (update 500 s1) = some s3 ∧
      s3.trans = some ⟨(update 500 s1).objects, [⟨⟨2, 0, 0⟩, ⟨0, 0, 0⟩⟩], 1000, 2000⟩ ∧
      (update (1000 + 2000) s3).objects = [⟨⟨2, 0, 0⟩, ⟨0, 0, 0⟩⟩] :=
  c1_transition_supersession
    ⟨[], [⟨⟨0, 0, 0⟩, ⟨0, 0, 0⟩⟩], ⟨[], [], [], []⟩, none, false⟩
    [⟨⟨1, 0, 0⟩, ⟨0, 0, 0⟩⟩] [⟨⟨2, 0, 0⟩, ⟨0, 0, 0⟩⟩]
    2000 2000 0 500 1000 rfl rfl (by norm_num)

/-- C2 counterexample: a scene with 2 tiles and a layout set of length 1: the
lengths differ, yet transform succeeds (no LayoutMismatch failure), schedules
an animation for both tiles toward the wrapped target, and at completion both
tiles have moved — refuting that the call fails and animates no tile. -/
theorem c2_layout_mismatch_counterexample :
    ([(⟨⟨5, 5, 5⟩, ⟨6, 6, 6⟩⟩ : Obj)].length ≠
      ([dObj, dObj] : List Obj).length) ∧
    transform [(⟨⟨5, 5, 5⟩, ⟨6, 6, 6⟩⟩ : Obj)] 2000 0
      ⟨[], [dObj, dObj], ⟨[], [], [], []⟩, none, false⟩ =
    some ⟨[], [dObj, dObj], ⟨[], [], [], []⟩,
          some ⟨[dObj, dObj], [⟨⟨5, 5, 5⟩, ⟨6, 6, 6⟩⟩, ⟨⟨5, 5, 5⟩, ⟨6, 6, 6⟩⟩],
                0, 2000⟩, false⟩ ∧
    (update 2000 ⟨[], [dObj, dObj], ⟨[], [], [], []⟩,
          some ⟨[dObj, dObj], [⟨⟨5, 5, 5⟩, ⟨6, 6, 6⟩⟩, ⟨⟨5, 5, 5⟩, ⟨6, 6, 6⟩⟩],
                0, 2000⟩, false⟩).objects =
      [⟨⟨5, 5, 5⟩, ⟨6, 6, 6⟩⟩, ⟨⟨5, 5, 5⟩, ⟨6, 6, 6⟩⟩] := by
  refine ⟨by simp, ?_, ?_⟩
  · rw [transform_eq _ _ _ _ (by simp)]
    have hw : wrapTargets [(⟨⟨5, 5, 5⟩, ⟨6, 6, 6⟩⟩ : Obj)] 2 =
        [⟨⟨5, 5, 5⟩, ⟨6, 6, 6⟩⟩, ⟨⟨5, 5, 5⟩, ⟨6, 6, 6⟩⟩] := by
      simp [wrapTargets, List.range_succ]
    rw [show (([dObj, dObj] : List Obj)).length = 2 by rfl, hw]
  · have h := update_complete
      ⟨[], [dObj, dObj], ⟨[], [], [], []⟩,
        some ⟨[dObj, dObj], [⟨⟨5, 5, 5⟩, ⟨6, 6, 6⟩⟩, ⟨⟨5, 5, 5⟩, ⟨6, 6, 6⟩⟩],
              0, 2000⟩, false⟩
      ⟨[dObj, dObj], [⟨⟨5, 5, 5⟩, ⟨6, 6, 6⟩⟩, ⟨⟨5, 5, 5⟩, ⟨6, 6, 6⟩⟩], 0, 2000⟩
      rfl (by simp) (by norm_num)
    norm_num at h
    exact h

/-- C2 amended: transform performs no layout-size check and never fails with a
LayoutMismatch: for every nonempty layout list (of any length, matching or
not) it succeeds and schedules an animation for every tile i toward target
(i mod length); only an empty layout list with at least one tile fails, and
that failure is the indexing TypeError, not a LayoutMismatch check. -/
theorem c2_transform_no_length_check :
    ∀ (s : SceneState) (L : List Obj) (d t : ℝ),
      (L ≠ [] →
        transform L d t s =
          some { s with trans := some ⟨s.objects, wrapTargets L s.objects.length,
                                       t, d⟩ }) ∧
      (s.objects ≠ [] → transform [] d t s = none) := by
  intro s L d t
  constructor
  · intro hL
    apply transform_eq
    rintro ⟨h1, h2⟩
    exact hL (List.eq_nil_of_length_eq_zero h2)
  · intro ho
    unfold transform
    rw [if_pos]
    exact ⟨by simpa using (List.length_pos.mpr ho).ne', rfl⟩

/-- Witness for C2 (amended) on a concrete mismatched call. -/
theorem c2_transform_no_length_check_witness :
    transform [(⟨⟨5, 5, 5⟩, ⟨0, 0, 0⟩⟩ : Obj)] 2000 0
      ⟨[], [dObj, dObj], ⟨[], [], [], []⟩, none, false⟩ =
    some { (⟨[], [dObj, dObj], ⟨[], [], [], []⟩, none, false⟩ : SceneState) with
           trans := some ⟨[dObj, dObj],
             wrapTargets [(⟨⟨5, 5, 5⟩, ⟨0, 0, 0⟩⟩ : Obj)] 2, 0, 2000⟩ } :=
  (c2_transform_no_length_check
    ⟨[], [dObj, dObj], ⟨[], [], [], []⟩, none, false⟩
    [⟨⟨5, 5, 5⟩, ⟨0, 0, 0⟩⟩] 2000 0).1 (by simp)

/-! ## Scene initialization lemmas -/

theorem initScene_eq (urlOk : String → Bool) (f : Vec3 → Vec3 → Vec3)
    (rnd : ℕ → Vec3) (records : List Record) (t0 : ℝ) :
    initScene urlOk f rnd records t0 =
      some { cards := records.map (buildCard urlOk)
             objects := (List.range records.length).map fun i => ⟨rnd i, ⟨0, 0, 0⟩⟩
             layouts := buildTargets records.length
             trans := some ⟨(List.range records.length).map fun i => ⟨rnd i, ⟨0, 0, 0⟩⟩,
                            (buildTableTargets records.length).map (toObj f), t0, 2000⟩
             renderLoop := true } := by
  have hc : ¬ ((((List.range records.length).map
        fun i => (⟨rnd i, ⟨0, 0, 0⟩⟩ : Obj)).length ≠ 0) ∧
      ((buildTargets records.length).table.map (toObj f)).length = 0) := by
    simp only [List.length_map, List.length_range, buildTargets, buildTableTargets_length]
    omega
  simp only [initScene, buildObjects]
  rw [transform_eq _ _ _ _ hc]
  simp only [Option.map_some']
  congr 1
  congr 1
  rw [wrapTargets_self]
  · simp only [buildTargets]
  · simp only [List.length_map, List.length_range, buildTargets, buildTableTargets_length]

/-- C8: initialization: initScene(records) builds one tile per record, index
aligned; computes all four layout sets, each of length records.length; starts
the render loop; and immediately issues a transition toward the table layout
with the default 2000 ms duration (start poses being the freshly created tile
poses). Each of the four menu triggers issues a transform toward its
precomputed layout set with the same fixed 2000 ms duration. -/
theorem c8_init_sequence :
    ∀ (urlOk : String → Bool) (f : Vec3 → Vec3 → Vec3) (rnd : ℕ → Vec3)
      (records : List Record) (t0 : ℝ),
      ∃ s, initScene urlOk f rnd records t0 = some s ∧
        s.cards = records.map (buildCard urlOk) ∧
        s.objects.length = records.length ∧
        s.layouts.table.length = records.length ∧
        s.layouts.sphere.length = records.length ∧
        s.layouts.helix.length = records.length ∧
        s.layouts.grid.length = records.length ∧
        s.renderLoop = true ∧
        s.trans = some ⟨(List.range records.length).map fun i => ⟨rnd i, ⟨0, 0, 0⟩⟩,
                        (buildTableTargets records.length).map (toObj f), t0, 2000⟩ ∧
        (∀ t st, selectTable f t st =
          transform (st.layouts.table.map (toObj f)) 2000 t st) ∧
        (∀ t st, selectSphere f t st =
          transform (st.layouts.sphere.map (toObj f)) 2000 t st) ∧
        (∀ t st, selectHelix f t st =
          transform (st.layouts.helix.map (toObj f)) 2000 t st) ∧
        (∀ t st, selectGrid f t st =
          transform (st.layouts.grid.map (toObj f)) 2000 t st) := by
  intro urlOk f rnd records t0
  refine ⟨_, initScene_eq urlOk f rnd records t0, rfl, by simp, ?_, ?_, ?_, ?_,
    rfl, rfl, fun t st => rfl, fun t st => rfl, fun t st => rfl, fun t st => rfl⟩
  · simp [buildTargets, buildTableTargets_length]
  · simp [buildTargets, buildSphereTargets_length]
  · simp [buildTargets, buildHelixTargets_length]
  · simp [buildTargets, buildGridTargets_length]

/-! ## Row-normalization lemmas -/

theorem mapWithIndex_length (f : ℕ → α → β) (l : List α) :
    (mapWithIndex f l).length = l.length := by
  simp [mapWithIndex]

/-- C9 amended: scene population through the boot callback never fails and
never raises an InvalidInput: it creates exactly one tile per normalized
record up to the MAX_RECORDS capacity of 200, and silently truncates any
records beyond the first 200 (in addition to the documented below-capacity
partial fill). -/
theorem c9_population_truncates :
    ∀ (urlOk : String → Bool) (f : Vec3 → Vec3 → Vec3) (rnd : ℕ → Vec3)
      (header : List String) (rows : List (List (Option String))) (t0 : ℝ),
      ∃ s, bootPopulate urlOk f rnd header rows t0 = some s ∧
        s.cards = ((normalizeRows header rows).take MAX_RECORDS).map (buildCard urlOk) ∧
        s.objects.length = min MAX_RECORDS (normalizeRows header rows).length := by
  intro urlOk f rnd header rows t0
  unfold bootPopulate
  refine ⟨_, initScene_eq urlOk f rnd _ t0, rfl, ?_⟩
  simp [List.length_take]

/-- C9 counterexample: 201 normalized records (one "Name" column, 201 non-blank
rows), yet the populated scene holds only 200 tiles and no error occurred —
refuting that population either fails fast or creates one tile per record. -/
theorem c9_population_counterexample :
    (normalizeRows ["Name"] (List.replicate 201 [some "A"])).length = 201 ∧
    ∃ s, bootPopulate (fun _ => false) (fun _ _ => ⟨0, 0, 0⟩) (fun _ => ⟨0, 0, 0⟩)
        ["Name"] (List.replicate 201 [some "A"]) 0 = some s ∧
      s.objects.length = 200 := by
  have hfilter : (List.replicate 201 [some "A"]).filter rowHasContent =
      List.replicate 201 [some "A"] := by
    rw [List.filter_eq_self]
    intro a ha
    rw [List.eq_of_mem_replicate ha]
    decide
  have hlen : (normalizeRows ["Name"] (List.replicate 201 [some "A"])).length = 201 := by
    unfold normalizeRows
    rw [mapWithIndex_length, hfilter, List.length_replicate]
  refine ⟨hlen, _, initScene_eq _ _ _ _ _, ?_⟩
  simp only [List.length_map, List.length_range, List.length_take, hlen,
    MAX_RECORDS, tableColumns, tableRows]
  norm_num

/-! ## Net-worth parsing lemmas -/

theorem takeWhile_eq_nil_of_not (p : Char → Bool) (l : List Char)
    (h : ∀ c ∈ l, p c = false) : l.takeWhile p = [] := by
  cases l with
  | nil => rfl
  | cons a t => simp [List.takeWhile_cons, h a (List.mem_cons_self a t)]

theorem mem_of_mem_jsTrim {c : Char} {l : List Char} (h : c ∈ jsTrim l) : c ∈ l := by
  unfold jsTrim at h
  rw [List.mem_reverse] at h
  have h1 := (List.dropWhile_sublist isWsChar).subset h
  rw [List.mem_reverse] at h1
  exact (List.dropWhile_sublist isWsChar).subset h1

theorem mem_of_mem_removeSubFuel (pat : List Char) :
    ∀ (fuel : ℕ) (l : List Char) (c : Char), c ∈ removeSubFuel pat fuel l → c ∈ l := by
  intro fuel
  induction fuel with
  | zero =>
    intro l c h
    cases l with
    | nil => simp [removeSubFuel] at h
    | cons a rest =>
      simp only [removeSubFuel] at h
      exact h
  | succ fuel ih =>
    intro l c h
    cases l with
    | nil => simp [removeSubFuel] at h
    | cons a rest =>
      rw [removeSubFuel] at h
      split at h
      · exact List.mem_cons_of_mem a (List.drop_subset _ rest (ih _ c h))
      · rcases List.mem_cons.mp h with h1 | h1
        · exact h1 ▸ List.mem_cons_self a rest
        · exact List.mem_cons_of_mem a (ih rest c h1)

theorem mem_of_mem_removeSub {pat l : List Char} {c : Char}
    (h : c ∈ removeSub pat l) : c ∈ l :=
  mem_of_mem_removeSubFuel pat l.length l c h

theorem findNumStart_subset :
    ∀ (l s : List Char), findNumStart l = some s → ∀ c ∈ s, c ∈ l := by
  intro l
  induction l with
  | nil => intro s h; simp [findNumStart] at h
  | cons a rest ih =>
    intro s h c hc
    rw [findNumStart.eq_def] at h
    simp only [] at h
    split at h
    · rw [Option.some.injEq] at h
      exact h ▸ hc
    · split at h
      · split at h
        · split at h
          · rw [Option.some.injEq] at h
            exact h ▸ hc
          · exact List.mem_cons_of_mem a (ih s h c hc)
        · exact absurd h (by simp)
      · exact List.mem_cons_of_mem a (ih s h c hc)

theorem upperChar_not_digit (c : Char) (h : c.isDigit = false) :
    (upperChar c).isDigit = false := by
  unfold upperChar
  split
  · rename_i hc
    have hex : ∃ m, 65 ≤ m ∧ m ≤ 90 ∧ c.toNat - 32 = m :=
      ⟨c.toNat - 32, by omega, by omega, rfl⟩
    obtain ⟨m, hb1, hb2, hm⟩ := hex
    rw [hm]
    interval_cases m <;> decide
  · exact h

theorem jsParseFloatAux_none (sgn : ℚ) (l1 : List Char)
    (h : ∀ c ∈ l1, c.isDigit = false) : jsParseFloatAux sgn l1 = none := by
  have hint : l1.takeWhile Char.isDigit = [] := takeWhile_eq_nil_of_not _ _ h
  have hfrac : (if (l1.dropWhile Char.isDigit).head? = some '.' then
      (l1.dropWhile Char.isDigit).tail.takeWhile Char.isDigit else []) = [] := by
    split
    · apply takeWhile_eq_nil_of_not
      intro c hc
      exact h c ((List.dropWhile_sublist Char.isDigit).subset (List.tail_subset _ hc))
    · rfl
  simp [jsParseFloatAux, hint, hfrac]

theorem jsParseFloat_none (l : List Char) (h : ∀ c ∈ l, c.isDigit = false) :
    jsParseFloat l = none := by
  have htail : ∀ c ∈ l.tail, c.isDigit = false := fun c hc => h c (List.tail_subset l hc)
  unfold jsParseFloat
  split
  · exact jsParseFloatAux_none _ _ htail
  · split
    · exact jsParseFloatAux_none _ _ htail
    · exact jsParseFloatAux_none _ _ h

theorem matchNetWorth_group_subset (l g1 : List Char) (suf : Option Char)
    (h : matchNetWorth l = some (g1, suf)) : ∀ c ∈ g1, c = '-' ∨ c ∈ l := by
  unfold matchNetWorth at h
  cases hf : findNumStart l with
  | none => rw [hf] at h; simp at h
  | some s =>
    rw [hf] at h
    simp only [Option.some.injEq, Prod.mk.injEq] at h
    obtain ⟨hg, -⟩ := h
    intro c hc
    rw [← hg] at hc
    have hs := findNumStart_subset l s hf
    by_cases hneg : (s.head? == some '-') = true
    · rw [if_pos hneg] at hc
      rcases List.mem_cons.mp hc with h1 | h1
      · exact Or.inl h1
      · refine Or.inr (hs c ?_)
        have h2 := (List.takeWhile_sublist isNumC).subset h1
        rw [if_pos hneg] at h2
        exact List.drop_subset 1 s h2
    · rw [if_neg hneg] at hc
      refine Or.inr (hs c ?_)
      have h2 := (List.takeWhile_sublist isNumC).subset hc
      rw [if_neg hneg] at h2
      exact h2

theorem parseNetWorth_none_of_no_digit (s : String)
    (h : ∀ c ∈ s.toList, c.isDigit = false) : parseNetWorth (some s) = none := by
  have hclean : ∀ c ∈ jsTrim (removeSub "USD".toList
      (((jsTrim s.toList).map upperChar).filter fun c => !(c == '$'))),
      c.isDigit = false := by
    intro c hc
    have h1 := mem_of_mem_jsTrim hc
    have h2 := mem_of_mem_removeSub h1
    have h3 := List.mem_of_mem_filter h2
    obtain ⟨a, ha, rfl⟩ := List.mem_map.mp h3
    exact upperChar_not_digit a (h a (mem_of_mem_jsTrim ha))
  simp only [parseNetWorth]
  split
  · rfl
  · cases hm : matchNetWorth (jsTrim (removeSub "USD".toList
        (((jsTrim s.toList).map upperChar).filter fun c => !(c == '$')))) with
    | none => rfl
    | some pr =>
      obtain ⟨g1, suf⟩ := pr
      have hfl : jsParseFloat (g1.filter fun c => !(c == ',')) = none := by
        apply jsParseFloat_none
        intro c hc
        rcases matchNetWorth_group_subset _ _ _ hm c (List.mem_of_mem_filter hc) with
          h1 | h1
        · rw [h1]; decide
        · exact hclean c h1
      show (match jsParseFloat (List.filter (fun c => !(c == ',')) g1) with
        | none => none
        | some q => some (q * multSuffix suf)) = none
      rw [hfl]

/-- C10: fallback classification is total and never throws: parseNetWorth
maps every input to None or a number — None for an undefined cell, for a
whitespace-only string and for any digit-free string — and applies the
multipliers 1000, 1000000 and 1000000000 for the suffixes K, M and B;
getWorthClass maps None to worth-unknown, values below 100000 to worth-low,
values in [100000, 200000) to worth-mid and all other values to worth-high;
and a record whose photo is absent (empty) or rejected by the URL parser
yields the "No Photo" placeholder tile instead of an error. -/
theorem c10_fallback_classification :
    (∀ v, parseNetWorth v = none ∨ ∃ q, parseNetWorth v = some q) ∧
    parseNetWorth none = none ∧
    (∀ s : String, jsTrim s.toList = [] → parseNetWorth (some s) = none) ∧
    (∀ s : String, (∀ c ∈ s.toList, c.isDigit = false) →
      parseNetWorth (some s) = none) ∧
    parseNetWorth (some "100K") = some 100000 ∧
    parseNetWorth (some "0.2M") = some 200000 ∧
    parseNetWorth (some "3B") = some 3000000000 ∧
    getWorthClass none = "worth-unknown" ∧
    (∀ q : ℚ, q < 100000 → getWorthClass (some q) = "worth-low") ∧
    (∀ q : ℚ, 100000 ≤ q → q < 200000 → getWorthClass (some q) = "worth-mid") ∧
    (∀ q : ℚ, 200000 ≤ q → getWorthClass (some q) = "worth-high") ∧
    (∀ (urlOk : String → Bool) (r : Record),
      r.photo = "" ∨ urlOk r.photo = false →
      (buildCard urlOk r).photo = PhotoSlot.text "No Photo") := by
  refine ⟨?_, rfl, ?_, ?_, ?_, ?_, ?_, rfl, ?_, ?_, ?_, ?_⟩
  · intro v
    rcases hpv : parseNetWorth v with _ | q
    · exact Or.inl rfl
    · exact Or.inr ⟨q, rfl⟩
  · intro s hs
    simp only [parseNetWorth]
    rw [if_pos hs]
  · exact parseNetWorth_none_of_no_digit
  · have h : parseNetWorth (some "100K") =
        some ((1 : ℚ) * (((100 : ℕ) : ℚ) + mkRat 0 1) * 1000) := rfl
    rw [h, Rat.mkRat_eq_div]
    norm_num
  · have h : parseNetWorth (some "0.2M") =
        some ((1 : ℚ) * (((0 : ℕ) : ℚ) + mkRat 2 10) * 1000000) := rfl
    rw [h, Rat.mkRat_eq_div]
    norm_num
  · have h : parseNetWorth (some "3B") =
        some ((1 : ℚ) * (((3 : ℕ) : ℚ) + mkRat 0 1) * 1000000000) := rfl
    rw [h, Rat.mkRat_eq_div]
    norm_num
  · intro q hq
    simp [getWorthClass, netWorthLow, hq]
  · intro q h1 h2
    simp [getWorthClass, netWorthLow, netWorthHigh, not_lt.mpr h1, h2]
  · intro q h1
    have h2 : ¬ q < 100000 := not_lt.mpr (le_trans (by norm_num) h1)
    simp [getWorthClass, netWorthLow, netWorthHigh, h2, not_lt.mpr h1]
  · intro urlOk r hor
    have hv : isValidUrl urlOk r.photo = false := by
      unfold isValidUrl
      rcases hor with h | h
      · rw [if_pos h]
      · by_cases hp : r.photo = ""
        · rw [if_pos hp]
        · rw [if_neg hp]; exact h
    simp [buildCard, hv]

/-- Witness for C10 at concrete inputs: a whitespace-only net worth, a
digit-free net worth, a concrete bucket value and a missing photo. -/
theorem c10_fallback_classification_witness :
    parseNetWorth (some " ") = none ∧
    parseNetWorth (some "abc") = none ∧
    getWorthClass (some 50) = "worth-low" ∧
    (buildCard (fun _ => false) ⟨"N", "", "", "", "", "", none⟩).photo =
      PhotoSlot.text "No Photo" := by
  obtain ⟨-, -, h3, h4, -, -, -, -, h9, -, -, h13⟩ := c10_fallback_classification
  exact ⟨h3 " " (by decide), h4 "abc" (by decide), h9 50 (by norm_num),
    h13 (fun _ => false) ⟨"N", "", "", "", "", "", none⟩ (Or.inl rfl)⟩
